import Mathlib

/-!
Verification of the claim analyzer in `src/fnol_intelligence_suite.py`
(`analyze_claim_with_ai` and its response parser).

Modelling conventions:
* Python strings are Lean `String`s.  The Python `str` operations the source
  uses (`strip`, `startswith`, `replace`, `split` on a one-character
  separator, `lower`) are embedded as structurally recursive functions over
  the underlying character lists with Python's semantics: `strip` removes
  whitespace from both ends (modelled for the ASCII whitespace characters),
  `replace` replaces every non-overlapping occurrence left to right,
  `split` keeps empty segments, `lower` lower-cases ASCII letters.
* Exceptions are embedded with `Except`: the external model call
  `model.generate_content(...).text` is a parameter
  `gen : List Part → Except String String`; `Except.error e` stands for an
  exception with text `str(e) = e` raised by the call (or by any step of the
  `try` body it subsumes), `Except.ok t` for a reply with text `t`.
* `status_container.update` calls are UI writes that do not influence the
  returned value; they are omitted.
* An uploaded image is modelled as `Option String`: `some d` is a file that
  `PIL.Image.open` decodes to payload `d`, `none` is a file whose decoding
  raises (the `except ... continue` in the source).
* The module global `GOOGLE_API_KEY : Optional[str]` is a parameter
  `apiKey : Option String`; Python's truthiness test `if not GOOGLE_API_KEY`
  is `keyPresent apiKey = false` (absent or empty string).
-/

namespace FNOL

/-- The ASCII whitespace characters removed by Python's `str.strip()`. -/
def isPySpace (c : Char) : Bool :=
  (c == ' ') || (c == '\t') || (c == '\n') || (c == '\x0d') || (c == '\x0b') || (c == '\x0c')

/-- Remove leading and trailing whitespace from a character list. -/
def trimChars (l : List Char) : List Char :=
  ((l.dropWhile isPySpace).reverse.dropWhile isPySpace).reverse

/-- Python `s.strip()`. -/
def pyStrip (s : String) : String := ⟨trimChars s.data⟩

/-- `startsWithChars p l` is true when `p` is a prefix of `l`. -/
def startsWithChars : List Char → List Char → Bool
  | [], _ => true
  | _ :: _, [] => false
  | p :: ps, c :: cs => p == c && startsWithChars ps cs

/-- Python `s.startswith(p)`. -/
def pyStartswith (s p : String) : Bool := startsWithChars p.data s.data

/-- Fuelled scan implementing Python `str.replace` for a non-empty pattern:
at each position, if the pattern matches, emit the replacement and skip the
pattern; else emit the character and advance one.  The fuel is the length of
the scanned list, which suffices for non-empty patterns (the only ones the
source uses). -/
def replaceFuel (pat rep : List Char) : Nat → List Char → List Char
  | _, [] => []
  | 0, l => l
  | fuel + 1, c :: cs =>
    if startsWithChars pat (c :: cs) then
      rep ++ replaceFuel pat rep fuel (List.drop pat.length (c :: cs))
    else
      c :: replaceFuel pat rep fuel cs

/-- Python `s.replace(pat, rep)` (all occurrences, left to right). -/
def pyReplace (s pat rep : String) : String :=
  ⟨replaceFuel pat.data rep.data s.data.length s.data⟩

/-- Split on a separator character, keeping empty segments,
as Python `s.split(sep)` does for a one-character `sep`. -/
def splitOnChar (sep : Char) : List Char → List (List Char)
  | [] => [[]]
  | c :: cs =>
    if c == sep then
      [] :: splitOnChar sep cs
    else
      match splitOnChar sep cs with
      | [] => [[c]]
      | h :: t => (c :: h) :: t

/-- Python `s.split(sep)` for a one-character separator. -/
def pySplit (s : String) (sep : Char) : List String :=
  (splitOnChar sep s.data).map (fun l => (⟨l⟩ : String))

/-- Python `s.lower()` (ASCII letters). -/
def pyLower (s : String) : String := ⟨s.data.map Char.toLower⟩

/-- The dictionary returned by `analyze_claim_with_ai`. -/
structure AnalysisResult where
  risk_level : String
  risk_flags : List String
  subrogation_potential : Option String
  ale_alert : Bool
  ai_summary : String
deriving DecidableEq, Repr

/-- The parser's initial dictionary (source lines 141-147). -/
def initResult : AnalysisResult :=
  { risk_level := "Medium"
    risk_flags := []
    subrogation_potential := none
    ale_alert := false
    ai_summary := "" }

/-- One iteration of the parsing loop (source lines 149-166): strip the line,
then dispatch on the five label prefixes. -/
def parseLine (r : AnalysisResult) (rawLine : String) : AnalysisResult :=
  let line := pyStrip rawLine
  if pyStartswith line "RISK_LEVEL:" then
    let level := pyStrip (pyReplace line "RISK_LEVEL:" "")
    { r with risk_level := if level ∈ (["Low", "Medium", "High"] : List String) then level else "Medium" }
  else if pyStartswith line "RISK_FLAGS:" then
    let flags := pyStrip (pyReplace line "RISK_FLAGS:" "")
    if pyLower flags ≠ "none" then
      { r with risk_flags := ((pySplit flags ',').map pyStrip).filter (fun f => f ≠ "") }
    else r
  else if pyStartswith line "SUBROGATION_POTENTIAL:" then
    let sub := pyStrip (pyReplace line "SUBROGATION_POTENTIAL:" "")
    if pyLower sub ∉ (["none", "none identified", "n/a"] : List String) then
      { r with subrogation_potential := some sub }
    else r
  else if pyStartswith line "ALE_ALERT:" then
    let ale := pyLower (pyStrip (pyReplace line "ALE_ALERT:" ""))
    { r with ale_alert := ale == "yes" }
  else if pyStartswith line "SUMMARY:" then
    { r with ai_summary := pyStrip (pyReplace line "SUMMARY:" "") }
  else r

/-- The whole response parser: `for line in response_text.split("\n")`
folded over the initial dictionary. -/
def parseResponse (text : String) : AnalysisResult :=
  (pySplit text '\n').foldl parseLine initResult

/-- A content part passed to the external generation call: the text prompt
or a decoded image. -/
inductive Part where
  | text (s : String)
  | image (data : String)
deriving DecidableEq, Repr

/-- The f-string prompt template (source lines 109-122). -/
def buildPrompt (description lossType : String) : String :=
  "You are an insurance claims AI analyst for an FNOL (First Notice of Loss) system.\nAnalyze the following claim and provide a structured assessment.\n\n**Loss Type:** " ++ lossType ++ "\n**Description:** " ++ description ++ "\n\nPlease analyze and respond in the following exact format:\n\nRISK_LEVEL: [Low/Medium/High]\nRISK_FLAGS: [List any red flags found, or \"None\" if none. Red flags include: vague timelines, property vacancy, conflicting damage descriptions, excessive claim amounts, recent policy changes, multiple prior claims. Only mark as High Risk if MULTIPLE triggers exist.]\nSUBROGATION_POTENTIAL: [Identify any potential 3rd party liability such as: neighbor\x27s tree, appliance manufacturer, contractor error, landlord negligence, auto accident with other driver, etc. Write \"None identified\" if none found.]\nALE_ALERT: [Yes/No - Set to Yes ONLY if description indicates: unlivable conditions, major fire damage, structural collapse, displacement required, or total loss]\nSUMMARY: [2-3 sentence professional summary of the claim analysis]\n"

/-- The content parts assembled for the external call (source lines 126-132):
the prompt, then each of the first 3 uploaded images that decodes,
in order; an image that fails to decode is skipped. -/
def contentParts (prompt : String) (uploadedImages : List (Option String)) : List Part :=
  Part.text prompt :: (uploadedImages.take 3).filterMap (fun img => img.map Part.image)

/-- Python truthiness of the `GOOGLE_API_KEY` global: present and non-empty. -/
def keyPresent : Option String → Bool
  | none => false
  | some s => !(s.data.isEmpty)

/-- `analyze_claim_with_ai` (source lines 84-181).  `gen` is the external
generation call; it receives the assembled content parts and either returns
the reply text or raises (`Except.error`). -/
def analyze (apiKey : Option String) (description lossType : String)
    (uploadedImages : List (Option String))
    (gen : List Part → Except String String) : AnalysisResult :=
  if keyPresent apiKey = false then
    { risk_level := "Unknown"
      risk_flags := ["AI analysis unavailable - API key not configured"]
      subrogation_potential := none
      ale_alert := false
      ai_summary := "AI analysis requires a valid GOOGLE_API_KEY." }
  else
    match gen (contentParts (buildPrompt description lossType) uploadedImages) with
    | Except.ok responseText => parseResponse responseText
    | Except.error e =>
      { risk_level := "Unknown"
        risk_flags := ["AI analysis error: " ++ e]
        subrogation_potential := none
        ale_alert := false
        ai_summary := "Unable to complete AI analysis." }

/-- Modelled from the spec: the phrase "the trimmed remainder of the line
after the label prefix" used by the claims about the parser.  Declared to
state those claims; the parser above never uses it. -/
def specRemainder (label line : String) : String :=
  pyStrip ⟨line.data.drop label.data.length⟩

end FNOL

namespace FNOL

/-! ### Helper lemmas about the embedded string primitives -/

theorem startsWithChars_take (p : List Char) :
    ∀ l, startsWithChars p l = true → l.take p.length = p := by
  induction p with
  | nil => intro l _; rfl
  | cons p ps ih =>
    intro l h
    cases l with
    | nil => simp [startsWithChars] at h
    | cons c cs =>
      simp only [startsWithChars, Bool.and_eq_true, beq_iff_eq] at h
      simp [List.take, h.1, ih cs h.2]

theorem startsWith_excl (p q l : List Char) (hp : startsWithChars p l = true)
    (hlen : p.length ≤ q.length) (hne : q.take p.length ≠ p) :
    startsWithChars q l = false := by
  cases hq : startsWithChars q l
  · rfl
  · exfalso
    apply hne
    have h1 := startsWithChars_take p l hp
    have h2 := startsWithChars_take q l hq
    calc q.take p.length = (l.take q.length).take p.length := by rw [h2]
      _ = l.take p.length := by rw [List.take_take, Nat.min_eq_left hlen]
      _ = p := h1

theorem startsWith_excl2 (p q l : List Char) (hp : startsWithChars p l = true)
    (hlen : q.length ≤ p.length) (hne : p.take q.length ≠ q) :
    startsWithChars q l = false := by
  cases hq : startsWithChars q l
  · rfl
  · exfalso
    apply hne
    have h1 := startsWithChars_take p l hp
    have h2 := startsWithChars_take q l hq
    calc p.take q.length = (l.take p.length).take q.length := by rw [h1]
      _ = l.take q.length := by rw [List.take_take, Nat.min_eq_left hlen]
      _ = q := h2

theorem pyStartswith_excl (s p q : String) (hp : pyStartswith s p = true)
    (hlen : p.data.length ≤ q.data.length) (hne : q.data.take p.data.length ≠ p.data) :
    pyStartswith s q = false :=
  startsWith_excl p.data q.data s.data hp hlen hne

theorem pyStartswith_excl2 (s p q : String) (hp : pyStartswith s p = true)
    (hlen : q.data.length ≤ p.data.length) (hne : p.data.take q.data.length ≠ q.data) :
    pyStartswith s q = false :=
  startsWith_excl2 p.data q.data s.data hp hlen hne

/-! ### Characterizations of one parsing-loop iteration, per label -/

theorem parseLine_risk_level_eq (r : AnalysisResult) (line : String)
    (h : pyStartswith (pyStrip line) "RISK_LEVEL:" = true) :
    parseLine r line =
      { r with risk_level :=
          if pyStrip (pyReplace (pyStrip line) "RISK_LEVEL:" "") ∈ (["Low", "Medium", "High"] : List String)
          then pyStrip (pyReplace (pyStrip line) "RISK_LEVEL:" "") else "Medium" } := by
  simp only [parseLine, h, if_true]

theorem parseLine_risk_flags_eq (r : AnalysisResult) (line : String)
    (h : pyStartswith (pyStrip line) "RISK_FLAGS:" = true) :
    parseLine r line =
      (if pyLower (pyStrip (pyReplace (pyStrip line) "RISK_FLAGS:" "")) ≠ "none" then
        { r with risk_flags := (((pySplit (pyStrip (pyReplace (pyStrip line) "RISK_FLAGS:" "")) ',').map pyStrip).filter (fun f => f ≠ "")) }
      else r) := by
  have h1 : pyStartswith (pyStrip line) "RISK_LEVEL:" = false :=
    pyStartswith_excl _ _ _ h (by decide) (by decide)
  simp only [parseLine, h, h1, Bool.false_eq_true, if_false, if_true]

theorem parseLine_subrogation_eq (r : AnalysisResult) (line : String)
    (h : pyStartswith (pyStrip line) "SUBROGATION_POTENTIAL:" = true) :
    parseLine r line =
      (if pyLower (pyStrip (pyReplace (pyStrip line) "SUBROGATION_POTENTIAL:" ""))
            ∉ (["none", "none identified", "n/a"] : List String) then
        { r with subrogation_potential := (some (pyStrip (pyReplace (pyStrip line) "SUBROGATION_POTENTIAL:" ""))) }
      else r) := by
  have h1 : pyStartswith (pyStrip line) "RISK_LEVEL:" = false :=
    pyStartswith_excl2 _ _ _ h (by decide) (by decide)
  have h2 : pyStartswith (pyStrip line) "RISK_FLAGS:" = false :=
    pyStartswith_excl2 _ _ _ h (by decide) (by decide)
  simp only [parseLine, h, h1, h2, Bool.false_eq_true, if_false, if_true]

theorem parseLine_ale_eq (r : AnalysisResult) (line : String)
    (h : pyStartswith (pyStrip line) "ALE_ALERT:" = true) :
    parseLine r line =
      { r with ale_alert := pyLower (pyStrip (pyReplace (pyStrip line) "ALE_ALERT:" "")) == "yes" } := by
  have h1 : pyStartswith (pyStrip line) "RISK_LEVEL:" = false :=
    pyStartswith_excl _ _ _ h (by decide) (by decide)
  have h2 : pyStartswith (pyStrip line) "RISK_FLAGS:" = false :=
    pyStartswith_excl _ _ _ h (by decide) (by decide)
  have h3 : pyStartswith (pyStrip line) "SUBROGATION_POTENTIAL:" = false :=
    pyStartswith_excl _ _ _ h (by decide) (by decide)
  simp only [parseLine, h, h1, h2, h3, Bool.false_eq_true, if_false, if_true]

theorem parseLine_summary_eq (r : AnalysisResult) (line : String)
    (h : pyStartswith (pyStrip line) "SUMMARY:" = true) :
    parseLine r line =
      { r with ai_summary := pyStrip (pyReplace (pyStrip line) "SUMMARY:" "") } := by
  have h1 : pyStartswith (pyStrip line) "RISK_LEVEL:" = false :=
    pyStartswith_excl _ _ _ h (by decide) (by decide)
  have h2 : pyStartswith (pyStrip line) "RISK_FLAGS:" = false :=
    pyStartswith_excl _ _ _ h (by decide) (by decide)
  have h3 : pyStartswith (pyStrip line) "SUBROGATION_POTENTIAL:" = false :=
    pyStartswith_excl _ _ _ h (by decide) (by decide)
  have h4 : pyStartswith (pyStrip line) "ALE_ALERT:" = false :=
    pyStartswith_excl _ _ _ h (by decide) (by decide)
  simp only [parseLine, h, h1, h2, h3, h4, Bool.false_eq_true, if_false, if_true]

theorem parseLine_unmatched (r : AnalysisResult) (line : String)
    (h1 : pyStartswith (pyStrip line) "RISK_LEVEL:" = false)
    (h2 : pyStartswith (pyStrip line) "RISK_FLAGS:" = false)
    (h3 : pyStartswith (pyStrip line) "SUBROGATION_POTENTIAL:" = false)
    (h4 : pyStartswith (pyStrip line) "ALE_ALERT:" = false)
    (h5 : pyStartswith (pyStrip line) "SUMMARY:" = false) :
    parseLine r line = r := by
  simp only [parseLine, h1, h2, h3, h4, h5, Bool.false_eq_true, if_false]

/-! ### The risk-level range invariant -/

theorem parseLine_level_mem (r : AnalysisResult) (line : String)
    (h : r.risk_level ∈ (["Low", "Medium", "High"] : List String)) :
    (parseLine r line).risk_level ∈ (["Low", "Medium", "High"] : List String) := by
  simp only [parseLine]
  split_ifs <;> simp_all

theorem foldl_level_mem (ls : List String) (r : AnalysisResult)
    (h : r.risk_level ∈ (["Low", "Medium", "High"] : List String)) :
    (ls.foldl parseLine r).risk_level ∈ (["Low", "Medium", "High"] : List String) := by
  induction ls generalizing r with
  | nil => exact h
  | cons a as ih => exact ih _ (parseLine_level_mem r a h)

theorem parseResponse_level_mem (t : String) :
    (parseResponse t).risk_level ∈ (["Low", "Medium", "High"] : List String) :=
  foldl_level_mem _ _ (by decide)

theorem foldl_unmatched (ls : List String)
    (h : ∀ l ∈ ls,
      pyStartswith (pyStrip l) "RISK_LEVEL:" = false ∧
      pyStartswith (pyStrip l) "RISK_FLAGS:" = false ∧
      pyStartswith (pyStrip l) "SUBROGATION_POTENTIAL:" = false ∧
      pyStartswith (pyStrip l) "ALE_ALERT:" = false ∧
      pyStartswith (pyStrip l) "SUMMARY:" = false) :
    ∀ r : AnalysisResult, ls.foldl parseLine r = r := by
  induction ls with
  | nil => intro r; rfl
  | cons a as ih =>
    intro r
    have ha := h a (List.mem_cons_self a as)
    have : parseLine r a = r := parseLine_unmatched r a ha.1 ha.2.1 ha.2.2.1 ha.2.2.2.1 ha.2.2.2.2
    simp only [List.foldl, this]
    exact ih (fun l hl => h l (List.mem_cons_of_mem a hl)) r

/-! ### The three execution paths of `analyze` -/

theorem analyze_missing (apiKey : Option String) (description lossType : String)
    (imgs : List (Option String)) (gen : List Part → Except String String)
    (hkey : keyPresent apiKey = false) :
    analyze apiKey description lossType imgs gen =
      { risk_level := "Unknown"
        risk_flags := ["AI analysis unavailable - API key not configured"]
        subrogation_potential := none
        ale_alert := false
        ai_summary := "AI analysis requires a valid GOOGLE_API_KEY." } := by
  simp [analyze, hkey]

theorem analyze_ok (apiKey : Option String) (description lossType : String)
    (imgs : List (Option String)) (gen : List Part → Except String String) (t : String)
    (hkey : keyPresent apiKey = true)
    (hgen : gen (contentParts (buildPrompt description lossType) imgs) = Except.ok t) :
    analyze apiKey description lossType imgs gen = parseResponse t := by
  simp [analyze, hkey, hgen]

theorem analyze_error (apiKey : Option String) (description lossType : String)
    (imgs : List (Option String)) (gen : List Part → Except String String) (e : String)
    (hkey : keyPresent apiKey = true)
    (hgen : gen (contentParts (buildPrompt description lossType) imgs) = Except.error e) :
    analyze apiKey description lossType imgs gen =
      { risk_level := "Unknown"
        risk_flags := ["AI analysis error: " ++ e]
        subrogation_potential := none
        ale_alert := false
        ai_summary := "Unable to complete AI analysis." } := by
  simp [analyze, hkey, hgen]

/-! ### Claim theorems -/

/-- C1: `analyze_claim_with_ai` never raises to its caller: exceptions of the
external generation call (and of the whole `try` body it lives in) are
embedded as `Except.error`, and `analyze` is a total function, so every
outcome is a returned `AnalysisResult`.  When the call raises with error text
`e`, the result has `risk_level = "Unknown"`, a flags sequence with exactly
one flag embedding the error text, `subrogation_potential = none`,
`ale_alert = false`, and the fixed failure summary. -/
theorem c1_exception_absorbed (apiKey : Option String) (description lossType : String)
    (imgs : List (Option String)) (gen : List Part → Except String String) (e : String)
    (hkey : keyPresent apiKey = true)
    (hgen : gen (contentParts (buildPrompt description lossType) imgs) = Except.error e) :
    analyze apiKey description lossType imgs gen =
      { risk_level := "Unknown"
        risk_flags := ["AI analysis error: " ++ e]
        subrogation_potential := none
        ale_alert := false
        ai_summary := "Unable to complete AI analysis." } :=
  analyze_error apiKey description lossType imgs gen e hkey hgen

/-- Witness for C1: a concrete raised call is absorbed into the failure result. -/
theorem c1_exception_absorbed_witness :
    analyze (some "key") "pipe burst" "Water" [] (fun _ => Except.error "quota exceeded") =
      { risk_level := "Unknown"
        risk_flags := ["AI analysis error: " ++ "quota exceeded"]
        subrogation_potential := none
        ale_alert := false
        ai_summary := "Unable to complete AI analysis." } :=
  c1_exception_absorbed (some "key") "pipe burst" "Water" []
    (fun _ => Except.error "quota exceeded") "quota exceeded" (by decide) rfl

/-- C2: on every execution path (missing credential, successful call with any
reply text, raised exception) the returned `risk_level` is one of exactly
"Low", "Medium", "High", "Unknown"; and it is "Unknown" only on the
missing-credential and exception paths. -/
theorem c2_risk_level_enum (apiKey : Option String) (description lossType : String)
    (imgs : List (Option String)) (gen : List Part → Except String String) :
    (analyze apiKey description lossType imgs gen).risk_level
        ∈ (["Low", "Medium", "High", "Unknown"] : List String)
    ∧ ((analyze apiKey description lossType imgs gen).risk_level = "Unknown" →
        keyPresent apiKey = false ∨
          ∃ e, gen (contentParts (buildPrompt description lossType) imgs) = Except.error e) := by
  constructor
  · cases hk : keyPresent apiKey with
    | false => rw [analyze_missing apiKey description lossType imgs gen hk]; decide
    | true =>
      cases hg : gen (contentParts (buildPrompt description lossType) imgs) with
      | ok t =>
        rw [analyze_ok apiKey description lossType imgs gen t hk hg]
        have := parseResponse_level_mem t
        simp only [List.mem_cons, List.not_mem_nil] at this ⊢
        tauto
      | error e => rw [analyze_error apiKey description lossType imgs gen e hk hg]; simp
  · intro hU
    cases hk : keyPresent apiKey with
    | false => exact Or.inl rfl
    | true =>
      cases hg : gen (contentParts (buildPrompt description lossType) imgs) with
      | ok t =>
        exfalso
        rw [analyze_ok apiKey description lossType imgs gen t hk hg] at hU
        have hmem := parseResponse_level_mem t
        rw [hU] at hmem
        exact absurd hmem (by decide)
      | error e => exact Or.inr ⟨e, rfl⟩

/-- Witness for C2 at a concrete input (success path with a valid reply). -/
theorem c2_risk_level_enum_witness :
    (analyze (some "key") "hail hit roof" "Hail" []
        (fun _ => Except.ok "RISK_LEVEL: High")).risk_level
      ∈ (["Low", "Medium", "High", "Unknown"] : List String) :=
  (c2_risk_level_enum (some "key") "hail hit roof" "Hail" []
    (fun _ => Except.ok "RISK_LEVEL: High")).1

/-- C3: with no API key configured (absent, or empty as Python truthiness has
it), `analyze_claim_with_ai` returns immediately with the fixed
missing-configuration result.  The right-hand side does not mention `gen`,
so the equality holds for every external call: no model call influences the
result. -/
theorem c3_missing_key (apiKey : Option String) (description lossType : String)
    (imgs : List (Option String)) (gen : List Part → Except String String)
    (hkey : keyPresent apiKey = false) :
    analyze apiKey description lossType imgs gen =
      { risk_level := "Unknown"
        risk_flags := ["AI analysis unavailable - API key not configured"]
        subrogation_potential := none
        ale_alert := false
        ai_summary := "AI analysis requires a valid GOOGLE_API_KEY." } :=
  analyze_missing apiKey description lossType imgs gen hkey

/-- Witness for C3: concrete missing-credential inputs (absent key and empty
key), with external calls that would return a high-risk reply or raise. -/
theorem c3_missing_key_witness :
    analyze none "fire damage" "Fire" [] (fun _ => Except.ok "RISK_LEVEL: High") =
      { risk_level := "Unknown"
        risk_flags := ["AI analysis unavailable - API key not configured"]
        subrogation_potential := none
        ale_alert := false
        ai_summary := "AI analysis requires a valid GOOGLE_API_KEY." }
    ∧ analyze (some "") "fire damage" "Fire" [] (fun _ => Except.error "boom") =
      { risk_level := "Unknown"
        risk_flags := ["AI analysis unavailable - API key not configured"]
        subrogation_potential := none
        ale_alert := false
        ai_summary := "AI analysis requires a valid GOOGLE_API_KEY." } :=
  ⟨c3_missing_key none "fire damage" "Fire" [] (fun _ => Except.ok "RISK_LEVEL: High") (by decide),
   c3_missing_key (some "") "fire damage" "Fire" [] (fun _ => Except.error "boom") (by decide)⟩

/-- C4 counterexample: the claim predicts "Medium" whenever the trimmed
remainder after the label prefix is not exactly "Low", "Medium" or "High";
but on the matched line "RISK_LEVEL:RISK_LEVEL: Low" that remainder is
"RISK_LEVEL: Low" — not one of the three — while the parser stores "Low",
because Python's `str.replace` removes every occurrence of the label text,
not only the leading one. -/
theorem c4_counterexample :
    pyStartswith (pyStrip "RISK_LEVEL:RISK_LEVEL: Low") "RISK_LEVEL:" = true
    ∧ specRemainder "RISK_LEVEL:" "RISK_LEVEL:RISK_LEVEL: Low" = "RISK_LEVEL: Low"
    ∧ "RISK_LEVEL: Low" ∉ (["Low", "Medium", "High"] : List String)
    ∧ (parseResponse "RISK_LEVEL:RISK_LEVEL: Low").risk_level = "Low"
    ∧ "Low" ≠ "Medium" := by decide

/-- C4 amended: the parsed risk level defaults to "Medium" before any line is
processed; on a matched RISK_LEVEL line the candidate value is the stripped
line with every occurrence of "RISK_LEVEL:" removed and then trimmed (which
equals the trimmed remainder whenever the label text does not reoccur in it),
kept if it exactly equals "Low", "Medium" or "High" (case-sensitive) and
replaced by "Medium" otherwise; the line "RISK_LEVEL: Severe" yields
"Medium". -/
theorem c4_risk_level_validation (r : AnalysisResult) (line : String)
    (h : pyStartswith (pyStrip line) "RISK_LEVEL:" = true) :
    initResult.risk_level = "Medium"
    ∧ (parseLine r line).risk_level =
        (if pyStrip (pyReplace (pyStrip line) "RISK_LEVEL:" "") ∈ (["Low", "Medium", "High"] : List String)
         then pyStrip (pyReplace (pyStrip line) "RISK_LEVEL:" "") else "Medium")
    ∧ (parseResponse "RISK_LEVEL: Severe").risk_level = "Medium" := by
  refine ⟨rfl, ?_, by decide⟩
  rw [parseLine_risk_level_eq r line h]

/-- Witness for C4's amended statement at a concrete matched line. -/
theorem c4_risk_level_validation_witness :
    initResult.risk_level = "Medium"
    ∧ (parseLine initResult "RISK_LEVEL: High").risk_level =
        (if pyStrip (pyReplace (pyStrip "RISK_LEVEL: High") "RISK_LEVEL:" "") ∈ (["Low", "Medium", "High"] : List String)
         then pyStrip (pyReplace (pyStrip "RISK_LEVEL: High") "RISK_LEVEL:" "") else "Medium")
    ∧ (parseResponse "RISK_LEVEL: Severe").risk_level = "Medium" :=
  c4_risk_level_validation initResult "RISK_LEVEL: High" (by decide)

/-- C5 counterexample: a later "RISK_FLAGS: None" does not overwrite earlier
flags with the empty sequence, and a later "SUBROGATION_POTENTIAL: none" does
not overwrite an earlier value with absent — the sentinel branches of the
source skip the assignment, keeping the prior value. -/
theorem c5_counterexample :
    (parseResponse "RISK_FLAGS: vague timeline\nRISK_FLAGS: None").risk_flags = ["vague timeline"]
    ∧ ["vague timeline"] ≠ ([] : List String)
    ∧ (parseResponse "SUBROGATION_POTENTIAL: contractor error\nSUBROGATION_POTENTIAL: none").subrogation_potential = some "contractor error"
    ∧ some "contractor error" ≠ (none : Option String) := by decide

/-- C5 amended: each matched RISK_LEVEL, ALE_ALERT and SUMMARY line
overwrites the stored value (the outcome does not depend on the prior state,
so the last matching line wins, with no aggregation); a matched RISK_FLAGS or
SUBROGATION_POTENTIAL line overwrites only when its value is not the "none"
sentinel, and a sentinel line leaves the prior value unchanged (it does not
reset the field).  The two closing conjuncts show last-occurrence-wins on
whole replies. -/
theorem c5_last_match_overwrites (ra rb : AnalysisResult) (line : String) :
    (pyStartswith (pyStrip line) "RISK_LEVEL:" = true →
      (parseLine ra line).risk_level = (parseLine rb line).risk_level)
    ∧ (pyStartswith (pyStrip line) "ALE_ALERT:" = true →
      (parseLine ra line).ale_alert = (parseLine rb line).ale_alert)
    ∧ (pyStartswith (pyStrip line) "SUMMARY:" = true →
      (parseLine ra line).ai_summary = (parseLine rb line).ai_summary)
    ∧ (pyStartswith (pyStrip line) "RISK_FLAGS:" = true →
      pyLower (pyStrip (pyReplace (pyStrip line) "RISK_FLAGS:" "")) ≠ "none" →
      (parseLine ra line).risk_flags = (parseLine rb line).risk_flags)
    ∧ (pyStartswith (pyStrip line) "RISK_FLAGS:" = true →
      pyLower (pyStrip (pyReplace (pyStrip line) "RISK_FLAGS:" "")) = "none" →
      (parseLine ra line).risk_flags = ra.risk_flags)
    ∧ (pyStartswith (pyStrip line) "SUBROGATION_POTENTIAL:" = true →
      pyLower (pyStrip (pyReplace (pyStrip line) "SUBROGATION_POTENTIAL:" "")) ∉ (["none", "none identified", "n/a"] : List String) →
      (parseLine ra line).subrogation_potential = (parseLine rb line).subrogation_potential)
    ∧ (pyStartswith (pyStrip line) "SUBROGATION_POTENTIAL:" = true →
      pyLower (pyStrip (pyReplace (pyStrip line) "SUBROGATION_POTENTIAL:" "")) ∈ (["none", "none identified", "n/a"] : List String) →
      (parseLine ra line).subrogation_potential = ra.subrogation_potential)
    ∧ (parseResponse "SUMMARY: first\nSUMMARY: second").ai_summary = "second"
    ∧ (parseResponse "RISK_LEVEL: Low\nRISK_LEVEL: High").risk_level = "High" := by
  refine ⟨?_, ?_, ?_, ?_, ?_, ?_, ?_, by decide, by decide⟩
  · intro h
    rw [parseLine_risk_level_eq ra line h, parseLine_risk_level_eq rb line h]
  · intro h
    rw [parseLine_ale_eq ra line h, parseLine_ale_eq rb line h]
  · intro h
    rw [parseLine_summary_eq ra line h, parseLine_summary_eq rb line h]
  · intro h hne
    rw [parseLine_risk_flags_eq ra line h, parseLine_risk_flags_eq rb line h,
      if_pos hne, if_pos hne]
  · intro h heq
    rw [parseLine_risk_flags_eq ra line h, if_neg (not_not_intro heq)]
  · intro h hnot
    rw [parseLine_subrogation_eq ra line h, parseLine_subrogation_eq rb line h,
      if_pos hnot, if_pos hnot]
  · intro h hmem
    rw [parseLine_subrogation_eq ra line h, if_neg (not_not_intro hmem)]

/-- Witness for C5's amended statement: a sentinel RISK_FLAGS line keeps the
prior flags. -/
theorem c5_last_match_overwrites_witness :
    (parseLine { initResult with risk_flags := ["prior flag"] } "RISK_FLAGS: None").risk_flags
      = ({ initResult with risk_flags := ["prior flag"] } : AnalysisResult).risk_flags :=
  (c5_last_match_overwrites { initResult with risk_flags := ["prior flag"] } initResult
    "RISK_FLAGS: None").2.2.2.2.1 (by decide) (by decide)

/-- C6 counterexample: on the matched line "SUMMARY: water loss SUMMARY:
details" the trimmed remainder after the label prefix is "water loss
SUMMARY: details", but the stored summary is "water loss  details": the
label text inside the remainder is removed too (Python `str.replace`
replaces all occurrences), so a remainder containing the label text is not
stored unaltered. -/
theorem c6_counterexample :
    pyStartswith (pyStrip "SUMMARY: water loss SUMMARY: details") "SUMMARY:" = true
    ∧ specRemainder "SUMMARY:" "SUMMARY: water loss SUMMARY: details" = "water loss SUMMARY: details"
    ∧ (parseResponse "SUMMARY: water loss SUMMARY: details").ai_summary = "water loss  details"
    ∧ "water loss  details" ≠ "water loss SUMMARY: details" := by decide

/-- C6 amended: on a matched SUMMARY line the stored summary is the stripped
line with every occurrence of "SUMMARY:" removed, then trimmed; on a matched
SUBROGATION_POTENTIAL line whose computed value is not (case-insensitively)
"none", "none identified" or "n/a", the stored value is the stripped line
with every occurrence of "SUBROGATION_POTENTIAL:" removed, then trimmed.
Both coincide with the trimmed remainder exactly when the label text does
not reoccur in the remainder. -/
theorem c6_verbatim_store (r : AnalysisResult) (line : String) :
    (pyStartswith (pyStrip line) "SUMMARY:" = true →
      (parseLine r line).ai_summary = pyStrip (pyReplace (pyStrip line) "SUMMARY:" ""))
    ∧ (pyStartswith (pyStrip line) "SUBROGATION_POTENTIAL:" = true →
      pyLower (pyStrip (pyReplace (pyStrip line) "SUBROGATION_POTENTIAL:" "")) ∉ (["none", "none identified", "n/a"] : List String) →
      (parseLine r line).subrogation_potential = some (pyStrip (pyReplace (pyStrip line) "SUBROGATION_POTENTIAL:" ""))) := by
  constructor
  · intro h
    rw [parseLine_summary_eq r line h]
  · intro h hnot
    rw [parseLine_subrogation_eq r line h, if_pos hnot]

/-- Witness for C6's amended statement at concrete matched lines. -/
theorem c6_verbatim_store_witness :
    (parseLine initResult "SUMMARY: Kitchen fire contained quickly.").ai_summary
      = pyStrip (pyReplace (pyStrip "SUMMARY: Kitchen fire contained quickly.") "SUMMARY:" "")
    ∧ (parseLine initResult "SUBROGATION_POTENTIAL: contractor error").subrogation_potential
      = some (pyStrip (pyReplace (pyStrip "SUBROGATION_POTENTIAL: contractor error") "SUBROGATION_POTENTIAL:" "")) :=
  ⟨(c6_verbatim_store initResult "SUMMARY: Kitchen fire contained quickly.").1 (by decide),
   (c6_verbatim_store initResult "SUBROGATION_POTENTIAL: contractor error").2 (by decide) (by decide)⟩

/-- C7 counterexample: the line "   RISK_LEVEL: Low" does not itself start
with any of the five label prefixes (leading characters precede the label),
yet it changes the parsed risk level to "Low": the source strips each line
before the prefix test. -/
theorem c7_counterexample :
    pyStartswith "   RISK_LEVEL: Low" "RISK_LEVEL:" = false
    ∧ pyStartswith "   RISK_LEVEL: Low" "RISK_FLAGS:" = false
    ∧ pyStartswith "   RISK_LEVEL: Low" "SUBROGATION_POTENTIAL:" = false
    ∧ pyStartswith "   RISK_LEVEL: Low" "ALE_ALERT:" = false
    ∧ pyStartswith "   RISK_LEVEL: Low" "SUMMARY:" = false
    ∧ (parseResponse "   RISK_LEVEL: Low").risk_level = "Low"
    ∧ "Low" ≠ initResult.risk_level := by decide

/-- C7 amended: a line affects the parsed result only if the line, once
stripped of leading and trailing whitespace, starts with one of the five
exact label prefixes (case-sensitive); every line whose stripped form does
not — including differently-cased labels, missing colons, and labels
preceded by non-whitespace characters — leaves all five fields unchanged. -/
theorem c7_unmatched_line_no_effect (r : AnalysisResult) (line : String)
    (h1 : pyStartswith (pyStrip line) "RISK_LEVEL:" = false)
    (h2 : pyStartswith (pyStrip line) "RISK_FLAGS:" = false)
    (h3 : pyStartswith (pyStrip line) "SUBROGATION_POTENTIAL:" = false)
    (h4 : pyStartswith (pyStrip line) "ALE_ALERT:" = false)
    (h5 : pyStartswith (pyStrip line) "SUMMARY:" = false) :
    parseLine r line = r :=
  parseLine_unmatched r line h1 h2 h3 h4 h5

/-- Witness for C7's amended statement: a lower-cased label leaves the
state unchanged. -/
theorem c7_unmatched_line_no_effect_witness :
    parseLine initResult "risk_level: High" = initResult :=
  c7_unmatched_line_no_effect initResult "risk_level: High"
    (by decide) (by decide) (by decide) (by decide) (by decide)

/-- C8 counterexample: on the matched line "RISK_FLAGS: vague timeline,
RISK_FLAGS: property vacancy" the comma-separated trimmed segments of the
remainder are ["vague timeline", "RISK_FLAGS: property vacancy"], but the
parser stores ["vague timeline", "property vacancy"]: the label text inside
the remainder is removed before splitting (Python `str.replace` replaces all
occurrences). -/
theorem c8_counterexample :
    pyStartswith (pyStrip "RISK_FLAGS: vague timeline, RISK_FLAGS: property vacancy") "RISK_FLAGS:" = true
    ∧ specRemainder "RISK_FLAGS:" "RISK_FLAGS: vague timeline, RISK_FLAGS: property vacancy" = "vague timeline, RISK_FLAGS: property vacancy"
    ∧ ((pySplit "vague timeline, RISK_FLAGS: property vacancy" ',').map pyStrip).filter (fun f => f ≠ "") = ["vague timeline", "RISK_FLAGS: property vacancy"]
    ∧ (parseResponse "RISK_FLAGS: vague timeline, RISK_FLAGS: property vacancy").risk_flags = ["vague timeline", "property vacancy"]
    ∧ (["vague timeline", "property vacancy"] : List String) ≠ ["vague timeline", "RISK_FLAGS: property vacancy"] := by decide

/-- C8 amended: on a matched RISK_FLAGS line the parser computes the stripped
line with every occurrence of "RISK_FLAGS:" removed, then trimmed (equal to
the trimmed remainder whenever the label text does not reoccur in it); if
that equals "none" case-insensitively the flags stay empty, otherwise the
flags are its comma-separated segments, each trimmed, with empty segments
dropped.  "RISK_FLAGS: vague timeline, property vacancy" yields exactly
["vague timeline", "property vacancy"]. -/
theorem c8_flags_split (line : String)
    (h : pyStartswith (pyStrip line) "RISK_FLAGS:" = true) :
    (pyLower (pyStrip (pyReplace (pyStrip line) "RISK_FLAGS:" "")) = "none" →
      (parseLine initResult line).risk_flags = [])
    ∧ (pyLower (pyStrip (pyReplace (pyStrip line) "RISK_FLAGS:" "")) ≠ "none" →
      (parseLine initResult line).risk_flags =
        ((pySplit (pyStrip (pyReplace (pyStrip line) "RISK_FLAGS:" "")) ',').map pyStrip).filter (fun f => f ≠ ""))
    ∧ (parseResponse "RISK_FLAGS: vague timeline, property vacancy").risk_flags = ["vague timeline", "property vacancy"]
    ∧ (parseResponse "RISK_FLAGS: None").risk_flags = [] := by
  refine ⟨?_, ?_, by decide, by decide⟩
  · intro heq
    rw [parseLine_risk_flags_eq initResult line h, if_neg (not_not_intro heq)]
    rfl
  · intro hne
    rw [parseLine_risk_flags_eq initResult line h, if_pos hne]

/-- Witness for C8's amended statement at a concrete matched line. -/
theorem c8_flags_split_witness :
    (parseLine initResult "RISK_FLAGS: None").risk_flags = [] :=
  (c8_flags_split "RISK_FLAGS: None" (by decide)).1 (by decide)

/-- C9: the content parts sent to the external generation call are the prompt
followed by the decoded images drawn only from the first 3 elements of the
upload sequence, in order (the source slices to 3 before decoding, so a
corrupt file among the first 3 still occupies a slot); an image that fails
to decode is silently skipped and does not affect the others.  With 5
uploads only the first 3 are candidates, and a corrupt 2nd leaves the 1st
and 3rd forwarded.  `analyze` passes exactly `contentParts` to `gen` by
definition. -/
theorem c9_first_three_images (prompt : String) (imgs : List (Option String)) :
    contentParts prompt imgs = contentParts prompt (imgs.take 3)
    ∧ (∀ a c : String, ∀ o4 o5 : Option String,
        contentParts prompt [some a, none, some c, o4, o5] =
          [Part.text prompt, Part.image a, Part.image c])
    ∧ (∀ a b c : String, ∀ o4 o5 : Option String,
        contentParts prompt [some a, some b, some c, o4, o5] =
          [Part.text prompt, Part.image a, Part.image b, Part.image c]) := by
  refine ⟨?_, ?_, ?_⟩
  · simp [contentParts, List.take_take]
  · intro a c o4 o5; rfl
  · intro a b c o4 o5; rfl

/-- C10: a reply none of whose lines matches any of the five labels (the
parser's matching: strip the line, then test the prefixes) yields exactly
the initial defaults, in particular the empty-string summary; the empty
reply is such a reply, as Python splits it into one empty line. -/
theorem c10_defaults (text : String)
    (h : ∀ l ∈ pySplit text '\n',
      pyStartswith (pyStrip l) "RISK_LEVEL:" = false ∧
      pyStartswith (pyStrip l) "RISK_FLAGS:" = false ∧
      pyStartswith (pyStrip l) "SUBROGATION_POTENTIAL:" = false ∧
      pyStartswith (pyStrip l) "ALE_ALERT:" = false ∧
      pyStartswith (pyStrip l) "SUMMARY:" = false) :
    parseResponse text =
      { risk_level := "Medium", risk_flags := [], subrogation_potential := none,
        ale_alert := false, ai_summary := "" } := by
  unfold parseResponse
  rw [foldl_unmatched (pySplit text '\n') h initResult]
  rfl

/-- Witness for C10: the empty reply and a label-free reply give the
defaults. -/
theorem c10_defaults_witness :
    parseResponse "" =
      { risk_level := "Medium", risk_flags := [], subrogation_potential := none,
        ale_alert := false, ai_summary := "" }
    ∧ parseResponse "The claim looks routine.\nNo structured fields here." =
      { risk_level := "Medium", risk_flags := [], subrogation_potential := none,
        ale_alert := false, ai_summary := "" } :=
  ⟨c10_defaults "" (by decide),
   c10_defaults "The claim looks routine.\nNo structured fields here." (by decide)⟩

end FNOL
